import Mathlib

/-
Verification of the response-recovery pipeline of `ai_analyzer.py`
(class `NutritionAnalyzer`): the shape check `_is_valid_nutrition_result`,
the validator `_validate_llm_result`, the heuristic extractor
`_extract_from_llm_response`, the deterministic fallback
`_create_smart_fallback`, and the parsing section of `analyze_food`
(the code between the model reply and the returned record).

Modelling decisions, fixed for the whole development:

* Python dicts with string keys are association lists (`Record`), with
  Python's insertion-order semantics: assignment to an existing key
  replaces the value in place, assignment to a fresh key appends.
* Python numbers (the ints and floats that appear in parsed JSON and in
  the pipeline's arithmetic) are exact decimals `PyNum` (`mant / 10^exp`).
  Float literals such as `0.16` are modelled by their decimal value.
  Python's `int(x)` truncates toward zero; `pyIntTrunc` does the same on
  exact decimals.  This replaces IEEE-754 double arithmetic by exact
  decimal arithmetic; on every concrete value appearing in the claims the
  two agree.
* `json.loads` is a fuel-bounded recursive-descent parser returning
  `Option PyVal`; `none` models `json.JSONDecodeError`.  Unsupported
  corners (exponent literals, `NaN`/`Infinity`, lone surrogates) parse to
  `none`; none of them occur in the claims.
* The regex scans of the pipeline (`re.findall` over the code-fence
  pattern, the brace pattern, and the heuristic keyword patterns) are
  transcribed as direct character-list scanners implementing the
  documented semantics of each concrete pattern (leftmost match, greedy
  or lazy repetition as the pattern demands).  Where the Python engine's
  backtracking could produce a degenerate capture (for instance a
  whitespace-only capture just before a period), the scanner fails at
  that position and moves on; no claim depends on those corners.
* A raised Python exception is `Option.none` at the raising function;
  the `try`/`except` structure of `analyze_food` is transcribed in
  `analyze_food_recover` exactly: a validator exception in stages 1-3 and
  a fallback exception in the refusal branch are caught by the
  `except` at the end of the parsing section, which returns the heuristic
  extraction, whose own body raises nothing.
* `str.lower`, `str.strip` and the regex classes `\s`, `\d` are read at
  ASCII (all strings the pipeline inspects are ASCII).
-/

/-! ### Python values -/

/-- Exact decimal standing for a Python number: `mant / 10 ^ exp`.
`450` is `⟨450, 0⟩`, `0.8` is `⟨8, 1⟩`. -/
structure PyNum where
  mant : Int
  exp : Nat
deriving DecidableEq, Repr

/-- The `PyNum` of an integer literal. -/
def pnInt (n : Int) : PyNum := ⟨n, 0⟩

/-- A Python/JSON value as the pipeline manipulates it. -/
inductive PyVal where
  | str : String → PyVal
  | num : PyNum → PyVal
  | bool : Bool → PyVal
  | null : PyVal
  | list : List PyVal → PyVal
  | dict : List (String × PyVal) → PyVal

/-- A Python dict with string keys, in insertion order. -/
abbrev Record := List (String × PyVal)

/-- Dict read: first (and only) binding of a key. -/
def dlookup : Record → String → Option PyVal
  | [], _ => none
  | (k', v) :: rest, k => if k' = k then some v else dlookup rest k

/-- Python `key in dict`. -/
def dcontains (r : Record) (k : String) : Bool := (dlookup r k).isSome

/-- Python `dict[key] = value`: replace in place, or append if fresh. -/
def dset : Record → String → PyVal → Record
  | [], k, v => [(k, v)]
  | (k', v') :: rest, k, v =>
      if k' = k then (k', v) :: rest else (k', v') :: dset rest k v

/-! ### Numeric helpers (Python `int(...)`, `max`, rendering) -/

/-- Truncation toward zero of `n / d`, as Python `int()` applied to the
exact quotient.  Matches `int(x)` on nonnegative and negative values. -/
def itrunc (n : Int) (d : Nat) : Int :=
  if 0 ≤ n then Int.ofNat (n.toNat / d) else -Int.ofNat ((-n).toNat / d)

/-- Ten to the `e`, as a `Nat`. -/
def pow10 : Nat → Nat
  | 0 => 1
  | e + 1 => 10 * pow10 e

/-- Python `int(x * (a/b))` for a decimal `x` and an exact rational
constant `a / b` (the product of the float literals at the call site). -/
def pyIntScale (x : PyNum) (a b : Nat) : Int :=
  itrunc (x.mant * Int.ofNat a) (pow10 x.exp * b)

/-- Python `str(n)` for an int `n`. -/
def intToStr (n : Int) : String :=
  if n < 0 then "-" ++ Nat.repr (-n).toNat else Nat.repr n.toNat

/-- A gram figure rendered as in the source (`f"...g"`). -/
def gramStr (n : Int) : PyVal := PyVal.str (intToStr n ++ "g")

/-! ### Source: `_is_valid_nutrition_result` (ai_analyzer.py:61-66)

```
required_fields = ["foods_detected", "total_calories"]
return (all(field in result for field in required_fields) and
        isinstance(result.get("foods_detected"), list) and
        len(result.get("foods_detected", [])) > 0)
```
-/

/-- Is the value at `k` a Python list? (`isinstance(result.get(k), list)`;
a missing key gives `None`, which is not a list). -/
def isListAt (r : Record) (k : String) : Bool :=
  match dlookup r k with
  | some (PyVal.list _) => true
  | _ => false

/-- Python `len(result.get(k, []))` when the value is a list (the source only
evaluates this after the `isinstance` conjunct has passed). -/
def listLenAt (r : Record) (k : String) : Nat :=
  match dlookup r k with
  | some (PyVal.list l) => l.length
  | _ => 0

def is_valid_nutrition_result (r : Record) : Bool :=
  (dcontains r "foods_detected" && dcontains r "total_calories")
    && isListAt r "foods_detected"
    && decide (0 < listLenAt r "foods_detected")

/-! ### Character-list text helpers -/

/-- ASCII whitespace, the characters Python's `str.strip` and the regex
class `\s` treat as whitespace. -/
def isPyWs (c : Char) : Bool :=
  c = ' ' || c = '\t' || c = '\n' || c = '\r' || c = '\x0b' || c = '\x0c'

/-- Python `str.strip()` on a character list. -/
def stripList (cs : List Char) : List Char :=
  ((cs.dropWhile isPyWs).reverse.dropWhile isPyWs).reverse

/-- Does the text begin with the pattern? -/
def startsWithList : List Char → List Char → Bool
  | _, [] => true
  | [], _ :: _ => false
  | c :: cs, p :: ps => c = p && startsWithList cs ps

/-- Case-insensitive `startsWithList`; the pattern is given in lowercase. -/
def startsWithCI : List Char → List Char → Bool
  | _, [] => true
  | [], _ :: _ => false
  | c :: cs, p :: ps => Char.toLower c = p && startsWithCI cs ps

/-- Python `text.endswith(pat)`. -/
def endsWithList (cs pat : List Char) : Bool :=
  startsWithList cs.reverse pat.reverse

/-- Python `pat in text` (substring containment). -/
def containsSub : List Char → List Char → Bool
  | [], pat => pat.isEmpty
  | c :: cs, pat => startsWithList (c :: cs) pat || containsSub cs pat

/-- Python `text.replace(pat, '')` (remove every non-overlapping
occurrence, scanning left to right); `pat` must be nonempty. -/
def removeAllAux : Nat → List Char → List Char → List Char
  | 0, cs, _ => cs
  | _ + 1, [], _ => []
  | fuel + 1, c :: cs, pat =>
      if startsWithList (c :: cs) pat then
        removeAllAux fuel (List.drop (pat.length - 1) cs) pat
      else c :: removeAllAux fuel cs pat

def removeAll (cs pat : List Char) : List Char :=
  removeAllAux cs.length cs pat

/-- Python `re.split` on a character class: split at maximal runs of separator
characters, keeping the (possibly empty) boundary pieces. -/
def splitRunsAux : Nat → (Char → Bool) → List Char → List Char → List (List Char)
  | 0, _, acc, _ => [acc.reverse]
  | _ + 1, _, acc, [] => [acc.reverse]
  | fuel + 1, p, acc, c :: cs =>
      if p c then acc.reverse :: splitRunsAux fuel p [] (cs.dropWhile p)
      else splitRunsAux fuel p (c :: acc) cs

def splitRuns (p : Char → Bool) (cs : List Char) : List (List Char) :=
  splitRunsAux (cs.length + 1) p [] cs

/-- Quote removal (`.replace` of each quote character) — single-character
replacement by the empty string is a filter. -/
def removeQuotes (cs : List Char) : List Char :=
  cs.filter (fun c => !(c = '\x22' || c = '\x27'))

/-- Digit run value (`int` over a capture that is all digits). -/
def digitsToNat (cs : List Char) : Nat :=
  cs.foldl (fun a c => 10 * a + (c.toNat - 48)) 0

/-- One hexadecimal digit, as accepted by Python `int(_, 16)`. -/
def hexDigitVal (c : Char) : Option Nat :=
  if '0' ≤ c && c ≤ '9' then some (c.toNat - 48)
  else if 'a' ≤ c && c ≤ 'f' then some (c.toNat - 87)
  else if 'A' ≤ c && c ≤ 'F' then some (c.toNat - 55)
  else none

def parseHexAux : List Char → Nat → Option Nat
  | [], acc => some acc
  | c :: cs, acc =>
      match hexDigitVal c with
      | some d => parseHexAux cs (16 * acc + d)
      | none => none

/-- Python `int(s, 16)` on a plain hex-digit string (the shape of the
md5-hexdigest fingerprints the pipeline passes); `none` models the
`ValueError` raised on other strings.  (Python also tolerates
surrounding whitespace, a sign, `0x` and underscores; the pipeline's
fingerprints never contain those.) -/
def parseHex (s : String) : Option Nat :=
  if s.data.isEmpty then none else parseHexAux s.data 0

/-! ### `json.loads` -/

/-- JSON whitespace (RFC 8259, as `json.loads` skips it). -/
def isJsonWs (c : Char) : Bool :=
  c = ' ' || c = '\t' || c = '\n' || c = '\r'

def skipJsonWs (cs : List Char) : List Char := cs.dropWhile isJsonWs

/-- JSON string body after the opening quote; `acc` holds the decoded
characters in reverse.  `none` models a decode error. -/
def parseJsonString : Nat → List Char → List Char → Option (String × List Char)
  | 0, _, _ => none
  | fuel + 1, acc, cs =>
      match cs with
      | [] => none
      | '\x22' :: rest => some (String.mk acc.reverse, rest)
      | '\\' :: esc =>
          match esc with
          | '\x22' :: rest => parseJsonString fuel ('\x22' :: acc) rest
          | '\\' :: rest => parseJsonString fuel ('\\' :: acc) rest
          | '/' :: rest => parseJsonString fuel ('/' :: acc) rest
          | 'b' :: rest => parseJsonString fuel ('\x08' :: acc) rest
          | 'f' :: rest => parseJsonString fuel ('\x0c' :: acc) rest
          | 'n' :: rest => parseJsonString fuel ('\n' :: acc) rest
          | 'r' :: rest => parseJsonString fuel ('\r' :: acc) rest
          | 't' :: rest => parseJsonString fuel ('\t' :: acc) rest
          | 'u' :: h1 :: h2 :: h3 :: h4 :: rest =>
              match hexDigitVal h1, hexDigitVal h2, hexDigitVal h3, hexDigitVal h4 with
              | some d1, some d2, some d3, some d4 =>
                  parseJsonString fuel
                    (Char.ofNat (((d1 * 16 + d2) * 16 + d3) * 16 + d4) :: acc) rest
              | _, _, _, _ => none
          | _ => none
      | c :: rest => parseJsonString fuel (c :: acc) rest

/-- Does an exponent marker follow?  (Exponent literals are outside the
modelled subset; they make the parse fail.) -/
def expFollows : List Char → Bool
  | 'e' :: _ => true
  | 'E' :: _ => true
  | _ => false

/-- JSON number: `-? int frac?` with the JSON leading-zero rule. -/
def parseJsonNumber (cs : List Char) : Option (PyNum × List Char) :=
  let signed := match cs with
    | '-' :: r => (true, r)
    | _ => (false, cs)
  let neg := signed.1
  let cs1 := signed.2
  match cs1 with
  | [] => none
  | c :: _ =>
    if !c.isDigit then none
    else
      let intDigits := cs1.takeWhile Char.isDigit
      let rest1 := cs1.dropWhile Char.isDigit
      if intDigits.length > 1 && intDigits.headD '0' = '0' then none
      else
        match rest1 with
        | '.' :: r2 =>
            let fracDigits := r2.takeWhile Char.isDigit
            let rest2 := r2.dropWhile Char.isDigit
            if fracDigits.isEmpty then none
            else if expFollows rest2 then none
            else
              let m : Int := Int.ofNat (digitsToNat (intDigits ++ fracDigits))
              some (⟨if neg then -m else m, fracDigits.length⟩, rest2)
        | _ =>
            if expFollows rest1 then none
            else
              let m : Int := Int.ofNat (digitsToNat intDigits)
              some (⟨if neg then -m else m, 0⟩, rest1)

mutual

/-- One JSON value, leading whitespace allowed; returns the remainder. -/
def parseJsonVal : Nat → List Char → Option (PyVal × List Char)
  | 0, _ => none
  | fuel + 1, cs =>
      match skipJsonWs cs with
      | [] => none
      | '\x7b' :: rest => parseJsonObj fuel (skipJsonWs rest)
      | '[' :: rest => parseJsonArr fuel (skipJsonWs rest)
      | '\x22' :: rest =>
          (parseJsonString (rest.length + 1) [] rest).map
            (fun sr => (PyVal.str sr.1, sr.2))
      | 't' :: rest =>
          if startsWithList rest ['r', 'u', 'e'] then
            some (PyVal.bool true, rest.drop 3)
          else none
      | 'f' :: rest =>
          if startsWithList rest ['a', 'l', 's', 'e'] then
            some (PyVal.bool false, rest.drop 4)
          else none
      | 'n' :: rest =>
          if startsWithList rest ['u', 'l', 'l'] then
            some (PyVal.null, rest.drop 3)
          else none
      | rest => (parseJsonNumber rest).map (fun nr => (PyVal.num nr.1, nr.2))

/-- Object body after `{` (whitespace skipped). -/
def parseJsonObj : Nat → List Char → Option (PyVal × List Char)
  | 0, _ => none
  | fuel + 1, cs =>
      match cs with
      | '\x7d' :: rest => some (PyVal.dict [], rest)
      | _ => parseJsonMembers fuel cs []

/-- One or more `"key": value` members; duplicate keys keep the first
position and the last value, as Python's dict building does. -/
def parseJsonMembers : Nat → List Char → Record → Option (PyVal × List Char)
  | 0, _, _ => none
  | fuel + 1, cs, acc =>
      match cs with
      | '\x22' :: rest =>
          match parseJsonString (rest.length + 1) [] rest with
          | none => none
          | some (k, r1) =>
              match skipJsonWs r1 with
              | ':' :: r2 =>
                  match parseJsonVal fuel r2 with
                  | none => none
                  | some (v, r3) =>
                      match skipJsonWs r3 with
                      | ',' :: r4 => parseJsonMembers fuel (skipJsonWs r4) (dset acc k v)
                      | '\x7d' :: r4 => some (PyVal.dict (dset acc k v), r4)
                      | _ => none
              | _ => none
      | _ => none

/-- Array body after `[` (whitespace skipped). -/
def parseJsonArr : Nat → List Char → Option (PyVal × List Char)
  | 0, _ => none
  | fuel + 1, cs =>
      match cs with
      | ']' :: rest => some (PyVal.list [], rest)
      | _ => parseJsonElems fuel cs []

/-- One or more array elements, accumulated in reverse. -/
def parseJsonElems : Nat → List Char → List PyVal → Option (PyVal × List Char)
  | 0, _, _ => none
  | fuel + 1, cs, acc =>
      match parseJsonVal fuel cs with
      | none => none
      | some (v, r1) =>
          match skipJsonWs r1 with
          | ',' :: r2 => parseJsonElems fuel r2 (v :: acc)
          | ']' :: r2 => some (PyVal.list (v :: acc).reverse, r2)
          | _ => none

end

/-- Python `json.loads` on a character list: one document, then only
whitespace. -/
def jsonLoadsList (cs : List Char) : Option PyVal :=
  match parseJsonVal (3 * cs.length + 8) cs with
  | some (v, rest) => if (skipJsonWs rest).isEmpty then some v else none
  | none => none



/-! ### The code-fence scan (`re.findall(r'```(?:json)?\s*(\{.*?\})\s*```', ...)`,
ai_analyzer.py:399) -/

def fenceChars : List Char := "```".data

/-- After a candidate closing brace: `\s*` then a fence; returns the
remainder after the fence (the end of the full regex match). -/
def fenceAfterWs (cs : List Char) : Option (List Char) :=
  let r := cs.dropWhile isPyWs
  if startsWithList r fenceChars then some (r.drop 3) else none

/-- The lazy `(\{.*?\})`: collect from the opening brace to the first
closing brace that is followed by `\s*` and a fence. -/
def lazyFenceBody : Nat → List Char → List Char → Option (List Char × List Char)
  | 0, _, _ => none
  | _ + 1, _, [] => none
  | fuel + 1, acc, c :: rest =>
      if c = '\x7d' then
        match fenceAfterWs rest with
        | some after => some ((c :: acc).reverse, after)
        | none => lazyFenceBody fuel (c :: acc) rest
      else lazyFenceBody fuel (c :: acc) rest

/-- The fence pattern anchored at `cs`: returns (capture group, remainder
after the whole match).  The optional `(?:json)?` is greedy: with the
tag first, then without. -/
def fenceMatchAt (cs : List Char) : Option (List Char × List Char) :=
  if startsWithList cs fenceChars then
    let r1 := cs.drop 3
    let tryFrom := fun (r : List Char) =>
      match r.dropWhile isPyWs with
      | '\x7b' :: rest => lazyFenceBody (rest.length + 1) ['\x7b'] rest
      | _ => none
    match (if startsWithCI r1 "json".data then tryFrom (r1.drop 4) else none) with
    | some res => some res
    | none => tryFrom r1
  else none

/-- Python `re.findall`: leftmost matches, scanning resumes after each full
match. -/
def findCodeBlocksAux : Nat → List Char → List (List Char)
  | 0, _ => []
  | _ + 1, [] => []
  | fuel + 1, c :: cs =>
      match fenceMatchAt (c :: cs) with
      | some (cap, rest) => cap :: findCodeBlocksAux fuel rest
      | none => findCodeBlocksAux fuel cs

def findCodeBlocks (raw : String) : List (List Char) :=
  findCodeBlocksAux (raw.data.length + 1) raw.data

/-! ### The brace scan (`re.findall(r'\{(?:[^{}]|(?:\{[^{}]*\})*)*\}', ...)`,
ai_analyzer.py:414) -/

def isBrace (c : Char) : Bool := c = '\x7b' || c = '\x7d'

/-- Body of the brace pattern after the opening brace: plain characters
and complete depth-one groups, up to the first top-level closing brace;
a deeper opening brace fails the whole anchored attempt. -/
def braceBodyAux : Nat → List Char → List Char → Option (List Char × List Char)
  | 0, _, _ => none
  | _ + 1, _, [] => none
  | fuel + 1, acc, c :: rest =>
      if c = '\x7d' then some ((c :: acc).reverse, rest)
      else if c = '\x7b' then
        let inner := rest.takeWhile (fun x => !isBrace x)
        match rest.dropWhile (fun x => !isBrace x) with
        | '\x7d' :: rest2 =>
            braceBodyAux fuel (('\x7d' :: inner.reverse) ++ (c :: acc)) rest2
        | _ => none
      else braceBodyAux fuel (c :: acc) rest

def braceMatchAt (cs : List Char) : Option (List Char × List Char) :=
  match cs with
  | '\x7b' :: rest => braceBodyAux (rest.length + 1) ['\x7b'] rest
  | _ => none

def braceMatchesAux : Nat → List Char → List (List Char)
  | 0, _ => []
  | _ + 1, [] => []
  | fuel + 1, c :: cs =>
      match braceMatchAt (c :: cs) with
      | some (cap, rest) => cap :: braceMatchesAux fuel rest
      | none => braceMatchesAux fuel cs

def braceMatches (raw : String) : List (List Char) :=
  braceMatchesAux (raw.data.length + 1) raw.data

/-! ### Stages 1-3 of `analyze_food` (ai_analyzer.py:374-428) -/

/-- ai_analyzer.py:376-379: strip, then remove every fence marker. -/
def cleanResponse (raw : String) : List Char :=
  removeAll (removeAll (stripList raw.data) "```json".data) "```".data

/-- Stage 1, direct parse (ai_analyzer.py:382-393): the accepted parse
only; `_validate_llm_result` runs on the result at the call site. -/
def stageDirect (raw : String) : Option Record :=
  if startsWithList (cleanResponse raw) ['\x7b'] && endsWithList (cleanResponse raw) ['\x7d'] then
    match jsonLoadsList (cleanResponse raw) with
    | some (PyVal.dict d) => if is_valid_nutrition_result d then some d else none
    | _ => none
  else none

/-- The loop shared by stages 2 and 3 (ai_analyzer.py:400-411 and
417-428): first candidate whose `json.loads(block.strip())` passes the
shape check; parse failures and rejected parses both continue. -/
def firstValidDict : List (List Char) → Option Record
  | [] => none
  | b :: bs =>
      match jsonLoadsList (stripList b) with
      | some (PyVal.dict d) =>
          if is_valid_nutrition_result d then some d else firstValidDict bs
      | _ => firstValidDict bs

/-- Stage 2, fenced-block parse. -/
def stageCodeBlock (raw : String) : Option Record :=
  firstValidDict (findCodeBlocks raw)

/-- Stage 3, brace-scan parse. -/
def stagePattern (raw : String) : Option Record :=
  firstValidDict (braceMatches raw)

/-- ai_analyzer.py:431: `any(keyword in response_text.lower() for
keyword in ['image processing', 'computer vision', 'cannot analyze'])`. -/
def containsRefusal (raw : String) : Bool :=
  let low := raw.data.map Char.toLower
  containsSub low "image processing".data || containsSub low "computer vision".data
    || containsSub low "cannot analyze".data

/-! ### `_validate_llm_result` (ai_analyzer.py:68-119) -/

/-- Python `isinstance(x, (int, float))`; Python's `bool` is a subclass of
`int`, so booleans count. -/
def isNumVal : Option PyVal → Bool
  | some (PyVal.num _) => true
  | some (PyVal.bool _) => true
  | _ => false

def isNumAt (r : Record) (k : String) : Bool := isNumVal (dlookup r k)

def isDictAt (r : Record) (k : String) : Bool :=
  match dlookup r k with
  | some (PyVal.dict _) => true
  | _ => false

/-- Read of `result[k]` / `result.get(k, d)` as a number; a boolean reads
as its int value.  The default is only reached where the source has a
`.get` default or where an earlier validator step has already made the
key numeric. -/
def getNumD (r : Record) (k : String) (d : PyNum) : PyNum :=
  match dlookup r k with
  | some (PyVal.num c) => c
  | some (PyVal.bool b) => pnInt (if b then 1 else 0)
  | _ => d

/-- Read of `result.get(k, d)` as a list; only reached when an earlier
validator step has made the key a list, or with the source's default. -/
def getListD (r : Record) (k : String) (d : List PyVal) : List PyVal :=
  match dlookup r k with
  | some (PyVal.list l) => l
  | _ => d

/-- Derived `nutritional_breakdown` (ai_analyzer.py:83-90).  The scale
arguments are the exact values of the float expressions at each site:
`0.16/4 = 16/400`, `0.54/4 = 54/400`, `0.30/9 = 30/900`, `1/120`,
`1/150`. -/
def mkBreakdown (tc : PyNum) : Record :=
  [("calories", PyVal.num tc),
   ("protein", gramStr (pyIntScale tc 16 400)),
   ("carbohydrates", gramStr (pyIntScale tc 54 400)),
   ("fat", gramStr (pyIntScale tc 30 900)),
   ("fiber", gramStr (max 4 (pyIntScale tc 1 120))),
   ("sugar", gramStr (max 3 (pyIntScale tc 1 150)))]

/-- The portion label `['utama', 'sedang', 'kecil'][i]` (ai_analyzer.py:103). -/
def portionLabel : Nat → String
  | 0 => "utama"
  | 1 => "sedang"
  | _ => "kecil"

/-- The ratio `0.6 if i == 0 else 0.3 if i == 1 else 0.1`, as tenths. -/
def portionShare : Nat → Nat
  | 0 => 6
  | 1 => 3
  | _ => 1

/-- One derived `individual_foods` entry (ai_analyzer.py:100-108);
per-entry macros use `0.15/4`, `0.55/4`, `0.30/9` of the entry share. -/
def mkIndividualEntry (i : Nat) (food : PyVal) (tc : PyNum) : PyVal :=
  let pr := portionShare i
  PyVal.dict
    [("name", food),
     ("estimated_portion", PyVal.str ("1 porsi " ++ portionLabel i)),
     ("calories", PyVal.num (pnInt (pyIntScale tc pr 10))),
     ("protein", gramStr (pyIntScale tc (pr * 15) 4000)),
     ("carbs", gramStr (pyIntScale tc (pr * 55) 4000)),
     ("fat", gramStr (pyIntScale tc (pr * 30) 9000))]

def mkIndividualAux : Nat → List PyVal → PyNum → List PyVal
  | _, [], _ => []
  | i, f :: fs, tc => mkIndividualEntry i f tc :: mkIndividualAux (i + 1) fs tc

/-- The `individual_foods` list derived from the first three detected foods
(ai_analyzer.py:97-108). -/
def mkIndividual (foods : List PyVal) (tc : PyNum) : List PyVal :=
  mkIndividualAux 0 (foods.take 3) tc

/-- Python `", ".join(xs)`: Python raises `TypeError` unless every element is a
string; `none` models that. -/
def pyJoin (sep : String) : List PyVal → Option String
  | [] => some ""
  | [PyVal.str s] => some s
  | PyVal.str s :: x :: xs => (pyJoin sep (x :: xs)).map (fun t => s ++ sep ++ t)
  | _ => none

/-- The filled `health_tips` (ai_analyzer.py:113-117). -/
def mkTips (foodsStr : String) : List PyVal :=
  [PyVal.str ("Kombinasi " ++ foodsStr ++ " memberikan energi yang baik"),
   PyVal.str "Pastikan keseimbangan nutrisi harian",
   PyVal.str "Minum air putih yang cukup"]

/-- ai_analyzer.py:71-72. -/
def fixFoods (r : Record) : Record :=
  if isListAt r "foods_detected" then r
  else dset r "foods_detected" (PyVal.list [PyVal.str "Makanan dari analisis AI"])

/-- ai_analyzer.py:74-75. -/
def fixCalories (r : Record) : Record :=
  if isNumAt r "total_calories" then r
  else dset r "total_calories" (PyVal.num (pnInt 450))

/-- ai_analyzer.py:77-78. -/
def fixConfidence (r : Record) : Record :=
  if dcontains r "confidence_score" then r
  else dset r "confidence_score" (PyVal.num ⟨8, 1⟩)

/-- ai_analyzer.py:81-90; `result["total_calories"]` is numeric here
because `fixCalories` ran first (the `getNumD` default is dead). -/
def fixBreakdown (r : Record) : Record :=
  if isDictAt r "nutritional_breakdown" then r
  else
    dset r "nutritional_breakdown"
      (PyVal.dict (mkBreakdown (getNumD r "total_calories" (pnInt 450))))

/-- ai_analyzer.py:93-108. -/
def fixIndividual (r : Record) : Record :=
  if isListAt r "individual_foods" then r
  else
    dset r "individual_foods"
      (PyVal.list (mkIndividual (getListD r "foods_detected" [PyVal.str "Makanan utama"])
        (getNumD r "total_calories" (pnInt 450))))

/-- ai_analyzer.py:111-117; `none` is the `TypeError` raised by
`", ".join` when `foods_detected` holds a non-string. -/
def fixTips (r : Record) : Option Record :=
  if isListAt r "health_tips" then some r
  else
    match pyJoin ", " (getListD r "foods_detected" []) with
    | some s => some (dset r "health_tips" (PyVal.list (mkTips s)))
    | none => none

/-- The validator `_validate_llm_result` (ai_analyzer.py:68-119): the six fill-in
steps in source order. -/
def validate_llm_result (r : Record) : Option Record :=
  fixTips (fixIndividual (fixBreakdown (fixConfidence (fixCalories (fixFoods r)))))

/-! ### `_extract_from_llm_response` (ai_analyzer.py:121-223) -/

/-- The class `[:\s]`. -/
def isColonWs (c : Char) : Bool := c = ':' || isPyWs c

/-- The class `[\":\s]`. -/
def isQuoteColonWs (c : Char) : Bool := c = '\x22' || c = ':' || isPyWs c

/-- The class `[\":\s\[]`. -/
def isQuoteColonWsBracket (c : Char) : Bool := isQuoteColonWs c || c = '['

/-- The class `[^.\n]`. -/
def notDotNl (c : Char) : Bool := !(c = '.' || c = '\n')

/-- The class `[^\]]`. -/
def notRBracket (c : Char) : Bool := !(c = ']')

/-- Leftmost-match scan: try the anchored attempt at every position. -/
def scanFirst : Nat → List Char → (List Char → Option (List Char)) → Option (List Char)
  | 0, _, _ => none
  | _ + 1, [], _ => none
  | fuel + 1, c :: cs, att =>
      match att (c :: cs) with
      | some cap => some cap
      | none => scanFirst fuel cs att

/-- Anchored attempt for `kw<skip>*(<cap>+)`, case-insensitive keyword;
the capture is greedy and must be nonempty. -/
def kwCaptureAt (kw : List Char) (skipCls capCls : Char → Bool) (cs : List Char) :
    Option (List Char) :=
  if startsWithCI cs kw then
    let cap := ((cs.drop kw.length).dropWhile skipCls).takeWhile capCls
    if cap.isEmpty then none else some cap
  else none

/-- First capture of `kw<skip>*(<cap>+)` over the whole text. -/
def scanKwCapture (raw : List Char) (kw : String) (skipCls capCls : Char → Bool) :
    Option (List Char) :=
  scanFirst (raw.length + 1) raw (kwCaptureAt kw.data skipCls capCls)

/-- The separator class of `re.split(r'[,;dan\s]+', ...)`: the regex
class reads `dan` as the three characters `d`, `a`, `n`. -/
def isFoodSep (c : Char) : Bool :=
  c = ',' || c = ';' || c = 'd' || c = 'a' || c = 'n' || isPyWs c

/-- ai_analyzer.py:139-141: strip, drop quote characters, split, strip
the pieces, keep those longer than two characters. -/
def foodsFromCapture (cap : List Char) : List String :=
  let ft := removeQuotes (stripList cap)
  ((splitRuns isFoodSep ft).map stripList).filterMap
    (fun f => if f.length > 2 then some (String.mk f) else none)

/-- One food pattern: match, process, succeed only on a nonempty food
list (ai_analyzer.py:136-144). -/
def tryFoodPat (raw : List Char) (kw : String) (skipCls capCls : Char → Bool) :
    Option (List String) :=
  match scanKwCapture raw kw skipCls capCls with
  | none => none
  | some cap =>
      match foodsFromCapture cap with
      | [] => none
      | fs => some (fs.take 3)

/-- ai_analyzer.py:127-147: the five food patterns in order, default
`["Makanan dari foto"]`. -/
def extractDetectedFoods (raw : String) : List String :=
  match tryFoodPat raw.data "makanan" isColonWs notDotNl with
  | some fs => fs
  | none =>
  match tryFoodPat raw.data "terdeteksi" isColonWs notDotNl with
  | some fs => fs
  | none =>
  match tryFoodPat raw.data "terdiri" isColonWs notDotNl with
  | some fs => fs
  | none =>
  match tryFoodPat raw.data "menu" isColonWs notDotNl with
  | some fs => fs
  | none =>
  match tryFoodPat raw.data "foods_detected" isQuoteColonWsBracket notRBracket with
  | some fs => fs
  | none => ["Makanan dari foto"]

/-- Digits `\d{3,4}` anchored here, followed by `suffixOk`: greedy, four digits
first, then three. -/
def digitsCapAt (suffixOk : List Char → Bool) (cs : List Char) : Option (List Char) :=
  let try4 := cs.take 4
  if try4.length = 4 && try4.all Char.isDigit && suffixOk (cs.drop 4) then some try4
  else
    let try3 := cs.take 3
    if try3.length = 3 && try3.all Char.isDigit && suffixOk (cs.drop 3) then some try3
    else none

/-- Anchored attempt for `kw<skip>*(\d{3,4})`. -/
def kwDigitsAt (kw : List Char) (skipCls : Char → Bool) (cs : List Char) :
    Option (List Char) :=
  if startsWithCI cs kw then
    digitsCapAt (fun _ => true) ((cs.drop kw.length).dropWhile skipCls)
  else none

/-- The suffix `\s*k?cal` of the second calorie pattern,
case-insensitive. -/
def kcalSuffix (cs : List Char) : Bool :=
  let r := cs.dropWhile isPyWs
  startsWithCI r "kcal".data || startsWithCI r "cal".data

/-- ai_analyzer.py:150-165: the four calorie patterns in order, first
match converted with `int`, default 450. -/
def scanCal (raw : List Char) (att : List Char → Option (List Char)) :
    Option (List Char) :=
  scanFirst (raw.length + 1) raw att

def extractCalories (raw : String) : Nat :=
  match scanCal raw.data (kwDigitsAt "total_calories".data isQuoteColonWs) with
  | some cap => digitsToNat cap
  | none =>
  match scanCal raw.data (digitsCapAt kcalSuffix) with
  | some cap => digitsToNat cap
  | none =>
  match scanCal raw.data (kwDigitsAt "kalori".data isColonWs) with
  | some cap => digitsToNat cap
  | none =>
  match scanCal raw.data (kwDigitsAt "calories".data isQuoteColonWs) with
  | some cap => digitsToNat cap
  | none => 450

/-- ai_analyzer.py:178-179: strip, drop quotes, split on `[,;]+`, strip,
keep nonempty pieces. -/
def tipsFromCapture (cap : List Char) : List String :=
  let tt := removeQuotes (stripList cap)
  ((splitRuns (fun c => c = ',' || c = ';') tt).map stripList).filterMap
    (fun t => if t.isEmpty then none else some (String.mk t))

/-- One tip pattern, succeeding only on a nonempty tip list
(ai_analyzer.py:175-182). -/
def tryTipPat (raw : List Char) (kw : String) (skipCls capCls : Char → Bool) :
    Option (List String) :=
  match scanKwCapture raw kw skipCls capCls with
  | none => none
  | some cap =>
      match tipsFromCapture cap with
      | [] => none
      | ts => some (ts.take 3)

/-- ai_analyzer.py:168-182: the three tip patterns in order, default
tips otherwise. -/
def extractTips (raw : String) : List String :=
  match tryTipPat raw.data "health_tips" isQuoteColonWsBracket notRBracket with
  | some ts => ts
  | none =>
  match tryTipPat raw.data "saran" isColonWs notDotNl with
  | some ts => ts
  | none =>
  match tryTipPat raw.data "tips" isColonWs notDotNl with
  | some ts => ts
  | none => ["Konsumsi dengan porsi seimbang", "Perbanyak sayuran", "Minum air putih cukup"]

/-- The guard `detected_foods[1] if len(detected_foods) > 1 else "Makanan
pendamping"`. -/
def secondFood : List String → String
  | _ :: s :: _ => s
  | _ => "Makanan pendamping"

/-- The extractor `_extract_from_llm_response` (ai_analyzer.py:121-223).  Every index
access in the body is guarded, so its internal `except` (which would
fall back to `_create_smart_fallback`) is dead and the function is
total.  Scale arguments: `0.65 = 65/100`, `0.1/4 = 10/400`,
`0.35/4 = 35/400`, `0.2/9 = 20/900`, `0.35 = 35/100`, `0.06/4 = 6/400`,
`0.19/4 = 19/400`, `0.1/9 = 10/900`. -/
def extract_from_llm_response (raw image_hash : String) : Record :=
  let detected := extractDetectedFoods raw
  let tc : PyNum := pnInt (Int.ofNat (extractCalories raw))
  [("foods_detected", PyVal.list (detected.map PyVal.str)),
   ("total_calories", PyVal.num tc),
   ("nutritional_breakdown", PyVal.dict (mkBreakdown tc)),
   ("individual_foods", PyVal.list
     [PyVal.dict
       [("name", PyVal.str (detected.headD "Makanan utama")),
        ("estimated_portion", PyVal.str "1 porsi utama"),
        ("calories", PyVal.num (pnInt (pyIntScale tc 65 100))),
        ("protein", gramStr (pyIntScale tc 10 400)),
        ("carbs", gramStr (pyIntScale tc 35 400)),
        ("fat", gramStr (pyIntScale tc 20 900))],
      PyVal.dict
       [("name", PyVal.str (secondFood detected)),
        ("estimated_portion", PyVal.str "1 porsi kecil"),
        ("calories", PyVal.num (pnInt (pyIntScale tc 35 100))),
        ("protein", gramStr (pyIntScale tc 6 400)),
        ("carbs", gramStr (pyIntScale tc 19 400)),
        ("fat", gramStr (pyIntScale tc 10 900))]]),
   ("health_tips", PyVal.list ((extractTips raw).map PyVal.str)),
   ("confidence_score", PyVal.num ⟨75, 2⟩),
   ("note", PyVal.str ("🧠 Ekstraksi manual dari respons AI (ID: " ++ image_hash ++ ")")),
   ("analysis_source", PyVal.str "extracted_llm"),
   ("image_id", PyVal.str image_hash)]

/-! ### `_create_smart_fallback` (ai_analyzer.py:225-290) -/

/-- One fallback meal combination (a 4-tuple in the source: three food
names and a calorie total). -/
structure FoodCombo where
  n1 : String
  n2 : String
  n3 : String
  cal : Nat
deriving DecidableEq, Repr

/-- ai_analyzer.py:228-236. -/
def food_combinations : List FoodCombo :=
  [⟨"Nasi putih", "Ayam goreng", "Sayur bayam", 580⟩,
   ⟨"Gado-gado", "Kerupuk", "Es teh", 520⟩,
   ⟨"Mie ayam", "Pangsit", "Es jeruk", 620⟩,
   ⟨"Rendang", "Nasi putih", "Sayur asem", 720⟩,
   ⟨"Soto ayam", "Nasi putih", "Emping", 480⟩,
   ⟨"Gudeg", "Tahu bacem", "Telur", 650⟩,
   ⟨"Pecel lele", "Nasi putih", "Sambal", 590⟩]

/-- The seed `int(image_hash, 16) if image_hash else 0` (ai_analyzer.py:239);
`none` models the `ValueError` on a nonempty non-hex string. -/
def hashInt (image_hash : String) : Option Nat :=
  if image_hash = "" then some 0 else parseHex image_hash

/-- The entry `food_combinations[n % len(food_combinations)]`
(ai_analyzer.py:240); the `getD` default is dead since the index is
reduced modulo the length. -/
def comboAt (n : Nat) : FoodCombo :=
  food_combinations.getD (n % food_combinations.length) ⟨"", "", "", 0⟩

/-- The fallback `_create_smart_fallback` (ai_analyzer.py:225-290).  Scale arguments:
entry 1 uses `0.6`, `0.1/4`, `0.35/4`, `0.18/9`; entry 2 uses `0.3`,
`0.05/4`, `0.15/4`, `0.08/9`; entry 3 uses `0.1`, `0.01/4`, `0.04/4`,
`0.04/9`.  Note the record has no `image_id` key. -/
def create_smart_fallback (image_hash : String) : Option Record :=
  match hashInt image_hash with
  | none => none
  | some h =>
      let sel := comboAt h
      let tc : PyNum := pnInt (Int.ofNat sel.cal)
      some
        [("foods_detected", PyVal.list [PyVal.str sel.n1, PyVal.str sel.n2, PyVal.str sel.n3]),
         ("total_calories", PyVal.num tc),
         ("nutritional_breakdown", PyVal.dict (mkBreakdown tc)),
         ("individual_foods", PyVal.list
           [PyVal.dict
             [("name", PyVal.str sel.n1),
              ("estimated_portion", PyVal.str "1 porsi utama"),
              ("calories", PyVal.num (pnInt (pyIntScale tc 6 10))),
              ("protein", gramStr (pyIntScale tc 10 400)),
              ("carbs", gramStr (pyIntScale tc 35 400)),
              ("fat", gramStr (pyIntScale tc 18 900))],
            PyVal.dict
             [("name", PyVal.str sel.n2),
              ("estimated_portion", PyVal.str "1 porsi sedang"),
              ("calories", PyVal.num (pnInt (pyIntScale tc 3 10))),
              ("protein", gramStr (pyIntScale tc 5 400)),
              ("carbs", gramStr (pyIntScale tc 15 400)),
              ("fat", gramStr (pyIntScale tc 8 900))],
            PyVal.dict
             [("name", PyVal.str sel.n3),
              ("estimated_portion", PyVal.str "1 porsi kecil"),
              ("calories", PyVal.num (pnInt (pyIntScale tc 1 10))),
              ("protein", gramStr (pyIntScale tc 1 400)),
              ("carbs", gramStr (pyIntScale tc 4 400)),
              ("fat", gramStr (pyIntScale tc 4 900))]]),
         ("health_tips", PyVal.list
           [PyVal.str ("Kombinasi " ++ sel.n1 ++ " dan " ++ sel.n2
              ++ " memberikan energi yang baik"),
            PyVal.str "Pastikan keseimbangan nutrisi dengan sayuran",
            PyVal.str "Minum air putih yang cukup untuk hidrasi"]),
         ("confidence_score", PyVal.num ⟨75, 2⟩),
         ("note", PyVal.str ("🎯 Analisis konsisten berdasarkan foto (ID: "
            ++ image_hash ++ ")")),
         ("analysis_source", PyVal.str "smart_fallback")]

/-! ### The parsing section of `analyze_food` (ai_analyzer.py:374-441) -/

/-- The three assignments after a validated parse
(e.g. ai_analyzer.py:387-389). -/
def tagRecord (r : Record) (note tag image_hash : String) : Record :=
  dset (dset (dset r "note" (PyVal.str (note ++ " (ID: " ++ image_hash ++ ")")))
    "analysis_source" (PyVal.str tag)) "image_id" (PyVal.str image_hash)

/-- The common tail of an accepted parse in stages 1-3: validate, then
tag; a validator exception (`none`) is caught by the `except` at
ai_analyzer.py:439, which returns the heuristic extraction. -/
def afterParse (raw image_hash note tag : String) (d : Record) : Option Record :=
  match validate_llm_result d with
  | some r => some (tagRecord r note tag image_hash)
  | none => some (extract_from_llm_response raw image_hash)

/-- ai_analyzer.py:430-437: the refusal shortcut to the deterministic
fallback (whose `ValueError` on a nonempty non-hex fingerprint is
likewise caught at line 439 and rerouted to heuristic extraction),
otherwise heuristic extraction. -/
def stageTail (raw image_hash : String) : Option Record :=
  if containsRefusal raw then
    match create_smart_fallback image_hash with
    | some r => some r
    | none => some (extract_from_llm_response raw image_hash)
  else some (extract_from_llm_response raw image_hash)

/-- The parsing section of `analyze_food` (ai_analyzer.py:374-441):
stages 1-3 each validate and tag their accepted parse; the refusal
shortcut goes straight to the deterministic fallback; otherwise
heuristic extraction runs. -/
def analyze_food_recover (raw image_hash : String) : Option Record :=
  match stageDirect raw with
  | some d => afterParse raw image_hash "🤖 Direct JSON parse" "direct_json" d
  | none =>
  match stageCodeBlock raw with
  | some d => afterParse raw image_hash "🤖 Code block JSON parse" "code_block_json" d
  | none =>
  match stagePattern raw with
  | some d => afterParse raw image_hash "🤖 Pattern match JSON parse" "pattern_json" d
  | none => stageTail raw image_hash

/-- The conditions under which every fill-in step of
`_validate_llm_result` is a no-op: the six fields are present with the
checked types. -/
def validatorComplete (r : Record) : Bool :=
  isListAt r "foods_detected" && isNumAt r "total_calories"
    && dcontains r "confidence_score" && isDictAt r "nutritional_breakdown"
    && isListAt r "individual_foods" && isListAt r "health_tips"

/-- The eight fields common to every path's record (`image_id` is
treated separately: the fallback record omits it). -/
def hasCoreFields (r : Record) : Bool :=
  dcontains r "foods_detected" && dcontains r "total_calories"
    && dcontains r "nutritional_breakdown" && dcontains r "individual_foods"
    && dcontains r "health_tips" && dcontains r "confidence_score"
    && dcontains r "analysis_source" && dcontains r "note"

/-- A concrete candidate for the breakdown-derivation witness: numeric
`total_calories` 600, no `nutritional_breakdown`. -/
def cand600 : Record :=
  [("foods_detected", PyVal.list [PyVal.str "Nasi"]),
   ("total_calories", PyVal.num ⟨600, 0⟩),
   ("confidence_score", PyVal.num ⟨8, 1⟩),
   ("individual_foods", PyVal.list []),
   ("health_tips", PyVal.list [PyVal.str "Minum air putih"])]


/-! ### Validator lemmas -/

theorem dlookup_dset_self (r : Record) (k : String) (v : PyVal) :
    dlookup (dset r k v) k = some v := by
  induction r with
  | nil => simp [dset, dlookup]
  | cons hd tl ih =>
      by_cases h : hd.1 = k
      · simp [dset, dlookup, h]
      · simp [dset, dlookup, h, ih]

theorem dlookup_dset_ne (r : Record) (k k' : String) (v : PyVal)
    (h : k ≠ k') : dlookup (dset r k v) k' = dlookup r k' := by
  induction r with
  | nil => simp [dset, dlookup, h]
  | cons hd tl ih =>
      obtain ⟨hk, hv⟩ := hd
      by_cases h1 : hk = k
      · subst h1
        simp [dset, dlookup, h]
      · simp [dset, dlookup, h1, ih]



theorem fixFoods_lookup_ne (r : Record) (k : String) (h : ¬ k = "foods_detected") :
    dlookup (fixFoods r) k = dlookup r k := by
  unfold fixFoods
  split
  · rfl
  · exact dlookup_dset_ne r _ k _ (fun he => h he.symm)

theorem fixCalories_lookup_ne (r : Record) (k : String) (h : ¬ k = "total_calories") :
    dlookup (fixCalories r) k = dlookup r k := by
  unfold fixCalories
  split
  · rfl
  · exact dlookup_dset_ne r _ k _ (fun he => h he.symm)

theorem fixConfidence_lookup_ne (r : Record) (k : String) (h : ¬ k = "confidence_score") :
    dlookup (fixConfidence r) k = dlookup r k := by
  unfold fixConfidence
  split
  · rfl
  · exact dlookup_dset_ne r _ k _ (fun he => h he.symm)

theorem fixBreakdown_lookup_ne (r : Record) (k : String) (h : ¬ k = "nutritional_breakdown") :
    dlookup (fixBreakdown r) k = dlookup r k := by
  unfold fixBreakdown
  split
  · rfl
  · exact dlookup_dset_ne r _ k _ (fun he => h he.symm)

theorem fixIndividual_lookup_ne (r : Record) (k : String) (h : ¬ k = "individual_foods") :
    dlookup (fixIndividual r) k = dlookup r k := by
  unfold fixIndividual
  split
  · rfl
  · exact dlookup_dset_ne r _ k _ (fun he => h he.symm)

theorem fixTips_lookup_ne (r r' : Record) (k : String) (hs : fixTips r = some r')
    (h : ¬ k = "health_tips") : dlookup r' k = dlookup r k := by
  unfold fixTips at hs
  split at hs
  · cases hs
    rfl
  · rename_i hcond
    cases hj : pyJoin ", " (getListD r "foods_detected" []) with
    | none => rw [hj] at hs; cases hs
    | some s =>
        rw [hj] at hs
        cases hs
        exact dlookup_dset_ne r _ k _ (fun he => h he.symm)

theorem fixFoods_isList (r : Record) : isListAt (fixFoods r) "foods_detected" = true := by
  unfold fixFoods
  split
  · assumption
  · simp [isListAt, dlookup_dset_self]

theorem fixCalories_isNum (r : Record) : isNumAt (fixCalories r) "total_calories" = true := by
  unfold fixCalories
  split
  · assumption
  · simp [isNumAt, isNumVal, dlookup_dset_self]

theorem fixConfidence_contains (r : Record) :
    dcontains (fixConfidence r) "confidence_score" = true := by
  unfold fixConfidence
  split
  · assumption
  · simp [dcontains, dlookup_dset_self]

theorem fixBreakdown_isDict (r : Record) :
    isDictAt (fixBreakdown r) "nutritional_breakdown" = true := by
  unfold fixBreakdown
  split
  · assumption
  · simp [isDictAt, dlookup_dset_self]

theorem fixIndividual_isList (r : Record) :
    isListAt (fixIndividual r) "individual_foods" = true := by
  unfold fixIndividual
  split
  · assumption
  · simp [isListAt, dlookup_dset_self]

theorem fixTips_isList (r r' : Record) (hs : fixTips r = some r') :
    isListAt r' "health_tips" = true := by
  unfold fixTips at hs
  split at hs
  · cases hs
    assumption
  · cases hj : pyJoin ", " (getListD r "foods_detected" []) with
    | none => rw [hj] at hs; cases hs
    | some s =>
        rw [hj] at hs
        cases hs
        simp [isListAt, dlookup_dset_self]

theorem fixFoods_id (r : Record) (h : isListAt r "foods_detected" = true) :
    fixFoods r = r := by
  unfold fixFoods
  simp [h]

theorem fixCalories_id (r : Record) (h : isNumAt r "total_calories" = true) :
    fixCalories r = r := by
  unfold fixCalories
  simp [h]

theorem fixConfidence_id (r : Record) (h : dcontains r "confidence_score" = true) :
    fixConfidence r = r := by
  unfold fixConfidence
  simp [h]

theorem fixBreakdown_id (r : Record) (h : isDictAt r "nutritional_breakdown" = true) :
    fixBreakdown r = r := by
  unfold fixBreakdown
  simp [h]

theorem fixIndividual_id (r : Record) (h : isListAt r "individual_foods" = true) :
    fixIndividual r = r := by
  unfold fixIndividual
  simp [h]

theorem fixTips_id (r : Record) (h : isListAt r "health_tips" = true) :
    fixTips r = some r := by
  unfold fixTips
  simp [h]

theorem isListAt_congr {r₁ r₂ : Record} {k : String}
    (e : dlookup r₁ k = dlookup r₂ k) : isListAt r₁ k = isListAt r₂ k := by
  unfold isListAt
  rw [e]

theorem isNumAt_congr {r₁ r₂ : Record} {k : String}
    (e : dlookup r₁ k = dlookup r₂ k) : isNumAt r₁ k = isNumAt r₂ k := by
  unfold isNumAt
  rw [e]

theorem isDictAt_congr {r₁ r₂ : Record} {k : String}
    (e : dlookup r₁ k = dlookup r₂ k) : isDictAt r₁ k = isDictAt r₂ k := by
  unfold isDictAt
  rw [e]

theorem dcontains_congr {r₁ r₂ : Record} {k : String}
    (e : dlookup r₁ k = dlookup r₂ k) : dcontains r₁ k = dcontains r₂ k := by
  unfold dcontains
  rw [e]

theorem validate_llm_result_complete (r r' : Record)
    (h : validate_llm_result r = some r') : validatorComplete r' = true := by
  unfold validate_llm_result at h
  have e1 : dlookup r' "foods_detected" = dlookup (fixFoods r) "foods_detected" := by
    rw [fixTips_lookup_ne _ _ _ h (by decide), fixIndividual_lookup_ne _ _ (by decide),
        fixBreakdown_lookup_ne _ _ (by decide), fixConfidence_lookup_ne _ _ (by decide),
        fixCalories_lookup_ne _ _ (by decide)]
  have e2 : dlookup r' "total_calories"
      = dlookup (fixCalories (fixFoods r)) "total_calories" := by
    rw [fixTips_lookup_ne _ _ _ h (by decide), fixIndividual_lookup_ne _ _ (by decide),
        fixBreakdown_lookup_ne _ _ (by decide), fixConfidence_lookup_ne _ _ (by decide)]
  have e3 : dlookup r' "confidence_score"
      = dlookup (fixConfidence (fixCalories (fixFoods r))) "confidence_score" := by
    rw [fixTips_lookup_ne _ _ _ h (by decide), fixIndividual_lookup_ne _ _ (by decide),
        fixBreakdown_lookup_ne _ _ (by decide)]
  have e4 : dlookup r' "nutritional_breakdown"
      = dlookup (fixBreakdown (fixConfidence (fixCalories (fixFoods r))))
          "nutritional_breakdown" := by
    rw [fixTips_lookup_ne _ _ _ h (by decide), fixIndividual_lookup_ne _ _ (by decide)]
  have e5 : dlookup r' "individual_foods"
      = dlookup (fixIndividual (fixBreakdown (fixConfidence (fixCalories (fixFoods r)))))
          "individual_foods" := by
    rw [fixTips_lookup_ne _ _ _ h (by decide)]
  have c1 := (isListAt_congr e1).trans (fixFoods_isList r)
  have c2 := (isNumAt_congr e2).trans (fixCalories_isNum (fixFoods r))
  have c3 := (dcontains_congr e3).trans (fixConfidence_contains _)
  have c4 := (isDictAt_congr e4).trans (fixBreakdown_isDict _)
  have c5 := (isListAt_congr e5).trans (fixIndividual_isList _)
  have c6 := fixTips_isList _ _ h
  simp [validatorComplete, c1, c2, c3, c4, c5, c6]

theorem validate_llm_result_id (r : Record) (h : validatorComplete r = true) :
    validate_llm_result r = some r := by
  unfold validatorComplete at h
  simp only [Bool.and_eq_true] at h
  obtain ⟨⟨⟨⟨⟨h1, h2⟩, h3⟩, h4⟩, h5⟩, h6⟩ := h
  unfold validate_llm_result
  rw [fixFoods_id r h1, fixCalories_id r h2, fixConfidence_id r h3,
      fixBreakdown_id r h4, fixIndividual_id r h5, fixTips_id r h6]

theorem validate_llm_result_idem (r r' : Record)
    (h : validate_llm_result r = some r') : validate_llm_result r' = some r' :=
  validate_llm_result_id r' (validate_llm_result_complete r r' h)

theorem validate_preserves_foods (r r' : Record) (l : List PyVal)
    (hl : dlookup r "foods_detected" = some (PyVal.list l))
    (h : validate_llm_result r = some r') :
    dlookup r' "foods_detected" = some (PyVal.list l) := by
  unfold validate_llm_result at h
  have hfd : isListAt r "foods_detected" = true := by simp [isListAt, hl]
  rw [fixTips_lookup_ne _ _ _ h (by decide), fixIndividual_lookup_ne _ _ (by decide),
      fixBreakdown_lookup_ne _ _ (by decide), fixConfidence_lookup_ne _ _ (by decide),
      fixCalories_lookup_ne _ _ (by decide), fixFoods_id r hfd]
  exact hl

theorem tagRecord_lookup_ne (r : Record) (n t ih k : String)
    (h1 : ¬ k = "note") (h2 : ¬ k = "analysis_source") (h3 : ¬ k = "image_id") :
    dlookup (tagRecord r n t ih) k = dlookup r k := by
  unfold tagRecord
  rw [dlookup_dset_ne _ _ _ _ (fun he => h3 he.symm),
      dlookup_dset_ne _ _ _ _ (fun he => h2 he.symm),
      dlookup_dset_ne _ _ _ _ (fun he => h1 he.symm)]

theorem tagRecord_source (r : Record) (n t ih : String) :
    dlookup (tagRecord r n t ih) "analysis_source" = some (PyVal.str t) := by
  unfold tagRecord
  rw [dlookup_dset_ne _ _ _ _ (by decide)]
  exact dlookup_dset_self _ _ _

theorem tagRecord_image_id (r : Record) (n t ih : String) :
    dlookup (tagRecord r n t ih) "image_id" = some (PyVal.str ih) :=
  dlookup_dset_self _ _ _

theorem tagRecord_note (r : Record) (n t ih : String) :
    dlookup (tagRecord r n t ih) "note"
      = some (PyVal.str (n ++ " (ID: " ++ ih ++ ")")) := by
  unfold tagRecord
  rw [dlookup_dset_ne _ _ _ _ (by decide), dlookup_dset_ne _ _ _ _ (by decide)]
  exact dlookup_dset_self _ _ _

/-! ### Shape facts about the stage outputs -/

theorem firstValidDict_valid (bs : List (List Char)) (d : Record)
    (h : firstValidDict bs = some d) : is_valid_nutrition_result d = true := by
  induction bs with
  | nil => cases h
  | cons b bs ih =>
      unfold firstValidDict at h
      cases hj : jsonLoadsList (stripList b) with
      | none => rw [hj] at h; exact ih h
      | some v =>
          rw [hj] at h
          cases v with
          | dict d0 =>
              have h' : (if is_valid_nutrition_result d0 = true then some d0
                  else firstValidDict bs) = some d := h
              by_cases hv : is_valid_nutrition_result d0 = true
              · rw [if_pos hv] at h'
                cases h'
                exact hv
              · rw [if_neg hv] at h'
                exact ih h'
          | str s => exact ih h
          | num c => exact ih h
          | bool b0 => exact ih h
          | null => exact ih h
          | list l => exact ih h

theorem stageDirect_valid (raw : String) (d : Record)
    (h : stageDirect raw = some d) : is_valid_nutrition_result d = true := by
  unfold stageDirect at h
  by_cases hc : (startsWithList (cleanResponse raw) ['\x7b']
      && endsWithList (cleanResponse raw) ['\x7d']) = true
  · rw [if_pos hc] at h
    cases hj : jsonLoadsList (cleanResponse raw) with
    | none => rw [hj] at h; exact Option.noConfusion h
    | some v =>
        rw [hj] at h
        cases v with
        | dict d0 =>
            have h' : (if is_valid_nutrition_result d0 = true then some d0
                else none) = some d := h
            by_cases hv : is_valid_nutrition_result d0 = true
            · rw [if_pos hv] at h'
              cases h'
              exact hv
            · rw [if_neg hv] at h'
              exact Option.noConfusion h'
        | str s => exact Option.noConfusion h
        | num c => exact Option.noConfusion h
        | bool b0 => exact Option.noConfusion h
        | null => exact Option.noConfusion h
        | list l => exact Option.noConfusion h
  · rw [if_neg hc] at h
    exact Option.noConfusion h

theorem stageCodeBlock_valid (raw : String) (d : Record)
    (h : stageCodeBlock raw = some d) : is_valid_nutrition_result d = true :=
  firstValidDict_valid _ _ h

theorem stagePattern_valid (raw : String) (d : Record)
    (h : stagePattern raw = some d) : is_valid_nutrition_result d = true :=
  firstValidDict_valid _ _ h

theorem tryFoodPat_ne_nil (raw : List Char) (kw : String)
    (skipCls capCls : Char → Bool) (fs : List String)
    (h : tryFoodPat raw kw skipCls capCls = some fs) : fs ≠ [] := by
  unfold tryFoodPat at h
  cases hs : scanKwCapture raw kw skipCls capCls with
  | none => rw [hs] at h; exact Option.noConfusion h
  | some cap =>
      rw [hs] at h
      have h' : (match foodsFromCapture cap with
          | [] => none
          | fs => some (fs.take 3)) = some fs := h
      cases hf : foodsFromCapture cap with
      | nil => rw [hf] at h'; exact Option.noConfusion h'
      | cons a l =>
          rw [hf] at h'
          cases h'
          simp [List.take]

theorem extractDetectedFoods_ne_nil (raw : String) :
    extractDetectedFoods raw ≠ [] := by
  unfold extractDetectedFoods
  cases h1 : tryFoodPat raw.data "makanan" isColonWs notDotNl with
  | some fs => exact tryFoodPat_ne_nil _ _ _ _ _ h1
  | none =>
  cases h2 : tryFoodPat raw.data "terdeteksi" isColonWs notDotNl with
  | some fs => exact tryFoodPat_ne_nil _ _ _ _ _ h2
  | none =>
  cases h3 : tryFoodPat raw.data "terdiri" isColonWs notDotNl with
  | some fs => exact tryFoodPat_ne_nil _ _ _ _ _ h3
  | none =>
  cases h4 : tryFoodPat raw.data "menu" isColonWs notDotNl with
  | some fs => exact tryFoodPat_ne_nil _ _ _ _ _ h4
  | none =>
  cases h5 : tryFoodPat raw.data "foods_detected" isQuoteColonWsBracket notRBracket with
  | some fs => exact tryFoodPat_ne_nil _ _ _ _ _ h5
  | none => exact List.cons_ne_nil _ _

theorem extract_valid (raw fp : String) :
    is_valid_nutrition_result (extract_from_llm_response raw fp) = true := by
  have e1 : dlookup (extract_from_llm_response raw fp) "foods_detected"
      = some (PyVal.list ((extractDetectedFoods raw).map PyVal.str)) := rfl
  have e2 : dcontains (extract_from_llm_response raw fp) "total_calories" = true := rfl
  have c1 : dcontains (extract_from_llm_response raw fp) "foods_detected" = true := by
    simp [dcontains, e1]
  have hne := extractDetectedFoods_ne_nil raw
  unfold is_valid_nutrition_result
  rw [c1, e2]
  simp [isListAt, listLenAt, e1, List.length_pos, hne]

theorem fallback_valid (fp : String) (r : Record)
    (h : create_smart_fallback fp = some r) : is_valid_nutrition_result r = true := by
  unfold create_smart_fallback at h
  cases hh : hashInt fp with
  | none => rw [hh] at h; exact Option.noConfusion h
  | some n =>
      rw [hh] at h
      cases h
      rfl

theorem dcontains_of_isListAt {r : Record} {k : String} (h : isListAt r k = true) :
    dcontains r k = true := by
  unfold isListAt at h
  unfold dcontains
  cases hl : dlookup r k with
  | none => rw [hl] at h; cases h
  | some v => simp

theorem dcontains_of_isNumAt {r : Record} {k : String} (h : isNumAt r k = true) :
    dcontains r k = true := by
  unfold isNumAt isNumVal at h
  unfold dcontains
  cases hl : dlookup r k with
  | none => rw [hl] at h; cases h
  | some v => simp

theorem dcontains_of_isDictAt {r : Record} {k : String} (h : isDictAt r k = true) :
    dcontains r k = true := by
  unfold isDictAt at h
  unfold dcontains
  cases hl : dlookup r k with
  | none => rw [hl] at h; cases h
  | some v => simp

theorem dcontains_dset (r : Record) (k' : String) (v : PyVal) (k : String)
    (h : dcontains r k = true) : dcontains (dset r k' v) k = true := by
  by_cases he : k' = k
  · subst he
    simp [dcontains, dlookup_dset_self]
  · unfold dcontains
    rw [dlookup_dset_ne _ _ _ _ he]
    exact h

theorem dcontains_dset_self (r : Record) (k : String) (v : PyVal) :
    dcontains (dset r k v) k = true := by
  simp [dcontains, dlookup_dset_self]

theorem is_valid_intro (r : Record) (l : List PyVal)
    (hfd : dlookup r "foods_detected" = some (PyVal.list l)) (hl : l ≠ [])
    (htc : dcontains r "total_calories" = true) :
    is_valid_nutrition_result r = true := by
  unfold is_valid_nutrition_result
  rw [htc]
  simp [dcontains, hfd, isListAt, listLenAt, List.length_pos, hl]

theorem is_valid_elim (r : Record) (h : is_valid_nutrition_result r = true) :
    ∃ l, dlookup r "foods_detected" = some (PyVal.list l) ∧ l ≠ []
      ∧ dcontains r "total_calories" = true := by
  unfold is_valid_nutrition_result at h
  simp only [Bool.and_eq_true, decide_eq_true_eq] at h
  obtain ⟨⟨⟨hc1, hc2⟩, hlist⟩, hlen⟩ := h
  unfold isListAt at hlist
  cases hl : dlookup r "foods_detected" with
  | none => rw [hl] at hlist; cases hlist
  | some v =>
      rw [hl] at hlist
      cases v with
      | list l =>
          refine ⟨l, rfl, ?_, hc2⟩
          unfold listLenAt at hlen
          rw [hl] at hlen
          exact List.length_pos.mp hlen
      | str s => cases hlist
      | num c => cases hlist
      | bool b => cases hlist
      | null => cases hlist
      | dict d => cases hlist

/-- A shape-checked parse stays shape-checked through the Validator and
the note/source/id tagging. -/
theorem validated_tag_valid (d r : Record) (n t ih : String)
    (hd : is_valid_nutrition_result d = true)
    (hv : validate_llm_result d = some r) :
    is_valid_nutrition_result (tagRecord r n t ih) = true := by
  obtain ⟨l, hfd, hl, htc⟩ := is_valid_elim d hd
  have hfd' := validate_preserves_foods d r l hfd hv
  have hcomp := validate_llm_result_complete d r hv
  have htc' : dcontains r "total_calories" = true := by
    unfold validatorComplete at hcomp
    simp only [Bool.and_eq_true] at hcomp
    exact dcontains_of_isNumAt hcomp.1.1.1.1.2
  refine is_valid_intro _ l ?_ hl ?_
  · rw [tagRecord_lookup_ne _ _ _ _ _ (by decide) (by decide) (by decide)]
    exact hfd'
  · unfold tagRecord
    exact dcontains_dset _ _ _ _ (dcontains_dset _ _ _ _ (dcontains_dset _ _ _ _ htc'))

/-! ### Claim C1 -/

/-- C1: for every raw model-reply text (including the empty string,
plain prose, malformed JSON, and well-formed JSON lacking the required
fields) and every fingerprint, the recovery pipeline (the parsing
section of `analyze_food` together with `_extract_from_llm_response`
and `_create_smart_fallback`) returns a record passing the shape check
(non-empty `foods_detected` list and a `total_calories` value) and
never raises to the caller.  Proved for all fingerprints, hex digests
in particular. -/
theorem afterParse_total (raw fp note tag : String) (d : Record)
    (hd : is_valid_nutrition_result d = true) :
    ∃ r, afterParse raw fp note tag d = some r
      ∧ is_valid_nutrition_result r = true := by
  unfold afterParse
  cases hv : validate_llm_result d with
  | some r => exact ⟨_, rfl, validated_tag_valid d r _ _ _ hd hv⟩
  | none => exact ⟨_, rfl, extract_valid raw fp⟩

theorem stageTail_total (raw fp : String) :
    ∃ r, stageTail raw fp = some r ∧ is_valid_nutrition_result r = true := by
  unfold stageTail
  by_cases hr : containsRefusal raw = true
  · cases hf : create_smart_fallback fp with
    | some r =>
        refine ⟨r, ?_, fallback_valid fp r hf⟩
        rw [if_pos hr]
    | none =>
        refine ⟨_, ?_, extract_valid raw fp⟩
        rw [if_pos hr]
  · refine ⟨_, ?_, extract_valid raw fp⟩
    rw [if_neg hr]

theorem recover_total_and_shaped (raw fp : String) :
    ∃ r, analyze_food_recover raw fp = some r
      ∧ is_valid_nutrition_result r = true := by
  unfold analyze_food_recover
  cases h1 : stageDirect raw with
  | some d => exact afterParse_total raw fp _ _ d (stageDirect_valid raw d h1)
  | none =>
  cases h2 : stageCodeBlock raw with
  | some d => exact afterParse_total raw fp _ _ d (stageCodeBlock_valid raw d h2)
  | none =>
  cases h3 : stagePattern raw with
  | some d => exact afterParse_total raw fp _ _ d (stagePattern_valid raw d h3)
  | none => exact stageTail_total raw fp

/-! ### Claim C2 -/

theorem extract_coreFields (raw fp : String) :
    hasCoreFields (extract_from_llm_response raw fp) = true := rfl

theorem extract_has_image_id (raw fp : String) :
    dcontains (extract_from_llm_response raw fp) "image_id" = true := rfl

theorem fallback_coreFields (fp : String) (r : Record)
    (h : create_smart_fallback fp = some r) : hasCoreFields r = true := by
  unfold create_smart_fallback at h
  cases hh : hashInt fp with
  | none => rw [hh] at h; exact Option.noConfusion h
  | some n =>
      rw [hh] at h
      cases h
      rfl

/-- The stage-6 fallback record has no `image_id` key. -/
theorem fallback_no_image_id (fp : String) (r : Record)
    (h : create_smart_fallback fp = some r) :
    dcontains r "image_id" = false := by
  unfold create_smart_fallback at h
  cases hh : hashInt fp with
  | none => rw [hh] at h; exact Option.noConfusion h
  | some n =>
      rw [hh] at h
      cases h
      rfl

theorem tag_coreFields (d r : Record) (n t ih : String)
    (hv : validate_llm_result d = some r) :
    hasCoreFields (tagRecord r n t ih) = true := by
  have hcomp := validate_llm_result_complete d r hv
  unfold validatorComplete at hcomp
  simp only [Bool.and_eq_true] at hcomp
  obtain ⟨⟨⟨⟨⟨c1, c2⟩, c3⟩, c4⟩, c5⟩, c6⟩ := hcomp
  have t1 := dcontains_of_isListAt c1
  have t2 := dcontains_of_isNumAt c2
  have t4 := dcontains_of_isDictAt c4
  have t5 := dcontains_of_isListAt c5
  have t6 := dcontains_of_isListAt c6
  have lift3 : ∀ k, dcontains r k = true → dcontains (tagRecord r n t ih) k = true :=
    fun k hk => by
      unfold tagRecord
      exact dcontains_dset _ _ _ _ (dcontains_dset _ _ _ _ (dcontains_dset _ _ _ _ hk))
  have s7 : dcontains (tagRecord r n t ih) "analysis_source" = true := by
    unfold tagRecord
    exact dcontains_dset _ _ _ _ (dcontains_dset_self _ _ _)
  have s8 : dcontains (tagRecord r n t ih) "note" = true := by
    unfold tagRecord
    exact dcontains_dset _ _ _ _ (dcontains_dset _ _ _ _ (dcontains_dset_self _ _ _))
  simp [hasCoreFields, lift3 _ t1, lift3 _ t2, lift3 _ c3, lift3 _ t4, lift3 _ t5,
    lift3 _ t6, s7, s8]

theorem afterParse_coreFields (raw fp note tag : String) (d r : Record)
    (h : afterParse raw fp note tag d = some r) : hasCoreFields r = true := by
  unfold afterParse at h
  cases hv : validate_llm_result d with
  | some r0 =>
      rw [hv] at h
      cases h
      exact tag_coreFields d r0 _ _ _ hv
  | none =>
      rw [hv] at h
      cases h
      exact extract_coreFields raw fp

theorem stageTail_coreFields (raw fp : String) (r : Record)
    (h : stageTail raw fp = some r) : hasCoreFields r = true := by
  unfold stageTail at h
  by_cases hr : containsRefusal raw = true
  · rw [if_pos hr] at h
    cases hf : create_smart_fallback fp with
    | some r0 =>
        rw [hf] at h
        cases h
        exact fallback_coreFields fp _ hf
    | none =>
        rw [hf] at h
        cases h
        exact extract_coreFields raw fp
  · rw [if_neg hr] at h
    cases h
    exact extract_coreFields raw fp

/-- C2 (amended): every record the pipeline returns carries
`foods_detected`, `total_calories`, `nutritional_breakdown`,
`individual_foods`, `health_tips`, `confidence_score`,
`analysis_source` and `note`; the claim's further assertions -- that
stages 5 and 6 also pass through the Validator, and that every path
carries `image_id` -- fail on the code (see the counterexample: the
stage-6 fallback record has no `image_id` key, and stages 5 and 6 build
their records directly, without `_validate_llm_result`). -/
theorem recover_coreFields (raw fp : String) (r : Record)
    (h : analyze_food_recover raw fp = some r) : hasCoreFields r = true := by
  unfold analyze_food_recover at h
  cases h1 : stageDirect raw with
  | some d =>
      rw [h1] at h
      exact afterParse_coreFields raw fp _ _ d r h
  | none =>
  rw [h1] at h
  cases h2 : stageCodeBlock raw with
  | some d =>
      rw [h2] at h
      exact afterParse_coreFields raw fp _ _ d r h
  | none =>
  rw [h2] at h
  cases h3 : stagePattern raw with
  | some d =>
      rw [h3] at h
      exact afterParse_coreFields raw fp _ _ d r h
  | none =>
  rw [h3] at h
  exact stageTail_coreFields raw fp r h

/-! ### Claim C3 -/

/-- C3 (counterexample): the shape check accepts a structure whose
`total_calories` is `null` -- a non-numeric, non-coercible value -- so
the claim that only numeric-or-coercible `total_calories` passes is
false. -/
theorem shape_check_accepts_null_calories :
    is_valid_nutrition_result
      [("foods_detected", PyVal.list [PyVal.str "Nasi"]),
       ("total_calories", PyVal.null)] = true := rfl

/-- C3 (amended): `_is_valid_nutrition_result` accepts a structure iff
it has a non-empty `foods_detected` list and a `total_calories` key;
the type of the `total_calories` value is not inspected at this gate
(the Validator later replaces non-numeric values with 450). -/
theorem shape_check_characterization (r : Record) :
    is_valid_nutrition_result r = true
      ↔ ∃ l, dlookup r "foods_detected" = some (PyVal.list l) ∧ l ≠ []
          ∧ dcontains r "total_calories" = true := by
  constructor
  · exact is_valid_elim r
  · rintro ⟨l, hfd, hl, htc⟩
    exact is_valid_intro r l hfd hl htc

/-! ### Claim C10 -/

/-- C10: the deterministic fallback is total on the empty fingerprint:
`_create_smart_fallback("")` skips the base-16 decode, uses index 0,
and returns the first table entry ("Nasi putih", "Ayam goreng",
"Sayur bayam", 580 kcal) without raising. -/
theorem empty_fingerprint_fallback :
    ((create_smart_fallback "").bind (fun r => dlookup r "foods_detected"))
        = some (PyVal.list
            [PyVal.str "Nasi putih", PyVal.str "Ayam goreng", PyVal.str "Sayur bayam"])
      ∧ ((create_smart_fallback "").bind (fun r => dlookup r "total_calories"))
          = some (PyVal.num ⟨580, 0⟩)
      ∧ hashInt "" = some 0 :=
  ⟨rfl, rfl, rfl⟩

/-! ### Claim C5 -/

/-- C5: the deterministic fallback is a pure function of the
fingerprint (equal fingerprints give identical records); on a decodable
fingerprint the selected table entry is the one at index
(base-16 value) mod table length -- `comboAt` is
`food_combinations.getD (h % food_combinations.length)` -- and
distinct fingerprints may collide on the same entry ("0" and "7" both
select entry 0). -/
theorem smart_fallback_deterministic_indexed :
    (∀ fp₁ fp₂ : String, fp₁ = fp₂ →
        create_smart_fallback fp₁ = create_smart_fallback fp₂)
      ∧ (∀ (fp : String) (h : Nat), hashInt fp = some h →
          ∃ r, create_smart_fallback fp = some r
            ∧ dlookup r "foods_detected"
                = some (PyVal.list [PyVal.str (comboAt h).n1, PyVal.str (comboAt h).n2,
                    PyVal.str (comboAt h).n3])
            ∧ dlookup r "total_calories"
                = some (PyVal.num (pnInt (Int.ofNat (comboAt h).cal))))
      ∧ ("0" ≠ "7" ∧ hashInt "0" = some 0 ∧ hashInt "7" = some 7
          ∧ comboAt 0 = comboAt 7) := by
  refine ⟨fun fp₁ fp₂ he => by rw [he], ?_, by decide, rfl, rfl, rfl⟩
  intro fp h hh
  unfold create_smart_fallback
  rw [hh]
  exact ⟨_, rfl, rfl, rfl⟩

/-- C5 (witness): the index law applied at the concrete fingerprint
"ab" (base-16 value 171, 171 mod 7 = 3, the "Rendang" entry), and
determinism applied at "ab". -/
theorem smart_fallback_deterministic_indexed_witness :
    ("ab" = "ab" ∧ create_smart_fallback "ab" = create_smart_fallback "ab")
      ∧ hashInt "ab" = some 171
      ∧ (∃ r, create_smart_fallback "ab" = some r
          ∧ dlookup r "foods_detected"
              = some (PyVal.list [PyVal.str (comboAt 171).n1, PyVal.str (comboAt 171).n2,
                  PyVal.str (comboAt 171).n3])
          ∧ dlookup r "total_calories"
              = some (PyVal.num (pnInt (Int.ofNat (comboAt 171).cal)))) :=
  ⟨⟨rfl, smart_fallback_deterministic_indexed.1 "ab" "ab" rfl⟩, rfl,
    smart_fallback_deterministic_indexed.2.1 "ab" 171 rfl⟩

/-! ### Claim C6 -/

/-- C6: stage ordering with first success winning: the minimal valid
JSON text gets tag `direct_json` (stage 1, not a later stage), and the
same JSON wrapped in a fenced code block behind prose gets tag
`code_block_json` (stage 2). -/
theorem stage_order_direct_and_fenced :
    ((analyze_food_recover
          "\x7b\x22foods_detected\x22:[\x22Nasi\x22],\x22total_calories\x22:500\x7d"
          "a1b2c3d4").bind (fun r => dlookup r "analysis_source"))
        = some (PyVal.str "direct_json")
      ∧ ((analyze_food_recover
            "Here is the nutrition analysis:\n```json\n\x7b\x22foods_detected\x22:[\x22Nasi\x22],\x22total_calories\x22:500\x7d\n```"
            "a1b2c3d4").bind (fun r => dlookup r "analysis_source"))
          = some (PyVal.str "code_block_json") :=
  ⟨rfl, rfl⟩

/-! ### Claim C7 -/

/-- C7: when stages 1-3 produce no accepted parse and the raw text
contains a refusal/explanation phrase, the pipeline routes directly to
the deterministic fallback -- the returned record is exactly
`_create_smart_fallback`'s, tagged `smart_fallback` -- skipping
heuristic extraction entirely. -/
theorem refusal_routes_to_smart_fallback (raw fp : String) (h0 : Nat)
    (h1 : stageDirect raw = none) (h2 : stageCodeBlock raw = none)
    (h3 : stagePattern raw = none) (hr : containsRefusal raw = true)
    (hh : hashInt fp = some h0) :
    analyze_food_recover raw fp = create_smart_fallback fp
      ∧ ∃ r, create_smart_fallback fp = some r
          ∧ dlookup r "analysis_source" = some (PyVal.str "smart_fallback") := by
  constructor
  · unfold analyze_food_recover
    rw [h1, h2, h3]
    show stageTail raw fp = create_smart_fallback fp
    unfold stageTail
    rw [if_pos hr]
    cases hf : create_smart_fallback fp with
    | some r => rfl
    | none =>
        unfold create_smart_fallback at hf
        rw [hh] at hf
        exact Option.noConfusion hf
  · unfold create_smart_fallback
    rw [hh]
    exact ⟨_, rfl, rfl⟩

/-- C7 (witness): the scenario text "I cannot analyze this image, it
appears to be a general photo." with the hex fingerprint "ab". -/
theorem refusal_routes_to_smart_fallback_witness :
    (stageDirect "I cannot analyze this image, it appears to be a general photo." = none
      ∧ stageCodeBlock "I cannot analyze this image, it appears to be a general photo." = none
      ∧ stagePattern "I cannot analyze this image, it appears to be a general photo." = none
      ∧ containsRefusal "I cannot analyze this image, it appears to be a general photo." = true
      ∧ hashInt "ab" = some 171)
      ∧ (analyze_food_recover
            "I cannot analyze this image, it appears to be a general photo." "ab"
          = create_smart_fallback "ab"
        ∧ ∃ r, create_smart_fallback "ab" = some r
            ∧ dlookup r "analysis_source" = some (PyVal.str "smart_fallback")) :=
  ⟨⟨rfl, rfl, rfl, rfl, rfl⟩,
    refusal_routes_to_smart_fallback _ "ab" 171 rfl rfl rfl rfl rfl⟩

/-! ### Claim C2, counterexample and witness -/

/-- C2 (counterexample): the pipeline returns the stage-6 fallback
record for refusal text, and that record has no `image_id` key -- so
not every path emits the full field set, and stage 6 cannot have gone
through a Validator that would not add it anyway. -/
theorem fallback_record_lacks_image_id_example :
    ((analyze_food_recover "I cannot analyze this image." "a1b2c3d4").map
        (fun r => dlookup r "image_id")) = some none := rfl

/-- C2 (witness): the eight-field guarantee applied on the direct-parse
path at a concrete input. -/
theorem recover_coreFields_witness :
    analyze_food_recover
        "\x7b\x22foods_detected\x22:[\x22Nasi\x22],\x22total_calories\x22:500\x7d" "e5f6a7b8"
      = some ((analyze_food_recover
          "\x7b\x22foods_detected\x22:[\x22Nasi\x22],\x22total_calories\x22:500\x7d"
          "e5f6a7b8").getD [])
    ∧ hasCoreFields ((analyze_food_recover
          "\x7b\x22foods_detected\x22:[\x22Nasi\x22],\x22total_calories\x22:500\x7d"
          "e5f6a7b8").getD []) = true :=
  ⟨rfl, recover_coreFields
    "\x7b\x22foods_detected\x22:[\x22Nasi\x22],\x22total_calories\x22:500\x7d" "e5f6a7b8"
    ((analyze_food_recover
      "\x7b\x22foods_detected\x22:[\x22Nasi\x22],\x22total_calories\x22:500\x7d"
      "e5f6a7b8").getD []) rfl⟩

/-! ### Claim C4 -/

/-- C4 (counterexample): a parsed JSON supplying a numeric zero
`total_calories` passes the shape check, the Validator keeps the
numeric 0, and the pipeline returns it as-is -- so `total_calories` is
not always strictly positive. -/
theorem pipeline_returns_zero_total_calories :
    ((analyze_food_recover
          "\x7b\x22foods_detected\x22:[\x22Nasi\x22],\x22total_calories\x22:0\x7d"
          "a1b2c3d4").bind (fun r => dlookup r "total_calories"))
      = some (PyVal.num ⟨0, 0⟩) := rfl

theorem comboAt_cal_pos (m : Nat) : 0 < (comboAt m).cal := by
  have h7 : m % food_combinations.length < 7 := Nat.mod_lt _ (by decide)
  unfold comboAt
  generalize m % food_combinations.length = i at h7 ⊢
  interval_cases i <;> decide

/-- C4 (amended): `total_calories` is strictly positive on the
deterministic-fallback path (every table entry is positive) and in the
Validator's fill-in (450 whenever the candidate's value is missing or
non-numeric); but a parsed candidate whose `total_calories` is already
numeric is returned with that value unchanged, which may be zero or
negative (see the counterexample). -/
theorem fallback_and_default_calories_positive :
    (∀ (fp : String) (r : Record), create_smart_fallback fp = some r →
        ∃ c : PyNum, dlookup r "total_calories" = some (PyVal.num c) ∧ 0 < c.mant)
      ∧ (∀ r r' : Record, isNumAt r "total_calories" = false →
          validate_llm_result r = some r' →
          dlookup r' "total_calories" = some (PyVal.num (pnInt 450))) := by
  constructor
  · intro fp r h
    unfold create_smart_fallback at h
    cases hh : hashInt fp with
    | none => rw [hh] at h; exact Option.noConfusion h
    | some n =>
        rw [hh] at h
        cases h
        refine ⟨pnInt (Int.ofNat (comboAt n).cal), rfl, ?_⟩
        have := comboAt_cal_pos n
        simp [pnInt]
        omega
  · intro r r' hnum hv
    unfold validate_llm_result at hv
    have h1 : isNumAt (fixFoods r) "total_calories" = false := by
      rw [isNumAt_congr (fixFoods_lookup_ne r _ (by decide))]
      exact hnum
    have h2 : fixCalories (fixFoods r)
        = dset (fixFoods r) "total_calories" (PyVal.num (pnInt 450)) := by
      unfold fixCalories
      rw [if_neg (by simp [h1])]
    rw [h2] at hv
    rw [fixTips_lookup_ne _ _ _ hv (by decide), fixIndividual_lookup_ne _ _ (by decide),
        fixBreakdown_lookup_ne _ _ (by decide), fixConfidence_lookup_ne _ _ (by decide)]
    exact dlookup_dset_self _ _ _

/-- C4 (witness): the fallback-positivity half applied at the empty
fingerprint, and the 450 fill-in applied at a candidate whose
`total_calories` is the string "x". -/
theorem fallback_and_default_calories_positive_witness :
    create_smart_fallback "" = some ((create_smart_fallback "").getD [])
      ∧ (∃ c : PyNum, dlookup ((create_smart_fallback "").getD []) "total_calories"
            = some (PyVal.num c) ∧ 0 < c.mant)
      ∧ isNumAt [("foods_detected", PyVal.list [PyVal.str "Nasi"]),
            ("total_calories", PyVal.str "x")] "total_calories" = false
      ∧ dlookup ((validate_llm_result
            [("foods_detected", PyVal.list [PyVal.str "Nasi"]),
             ("total_calories", PyVal.str "x")]).getD []) "total_calories"
          = some (PyVal.num (pnInt 450)) :=
  ⟨rfl, fallback_and_default_calories_positive.1 "" ((create_smart_fallback "").getD []) rfl,
    rfl,
    fallback_and_default_calories_positive.2
      [("foods_detected", PyVal.list [PyVal.str "Nasi"]), ("total_calories", PyVal.str "x")]
      ((validate_llm_result
        [("foods_detected", PyVal.list [PyVal.str "Nasi"]),
         ("total_calories", PyVal.str "x")]).getD []) rfl rfl⟩

/-! ### Claim C8 -/

/-- C8: the Validator is idempotent and non-overwriting: on any
candidate in which `foods_detected` is a list, `total_calories` is
numeric, and `confidence_score`, `nutritional_breakdown` (a dict),
`individual_foods` (a list) and `health_tips` (a list) are present
(`validatorComplete`), it returns the record unchanged; and whatever it
returns, applying it again returns the same record. -/
theorem validator_idempotent_nonoverwriting (r : Record) :
    (validatorComplete r = true → validate_llm_result r = some r)
      ∧ ∀ r' : Record, validate_llm_result r = some r' →
          validate_llm_result r' = some r' :=
  ⟨validate_llm_result_id r, fun r' h => validate_llm_result_idem r r' h⟩

/-- C8 (witness): an already-complete record is returned unchanged, and
re-validating the Validator's own output is a no-op. -/
theorem validator_idempotent_nonoverwriting_witness :
    validatorComplete
        [("foods_detected", PyVal.list [PyVal.str "Nasi"]),
         ("total_calories", PyVal.num ⟨500, 0⟩),
         ("confidence_score", PyVal.num ⟨8, 1⟩),
         ("nutritional_breakdown", PyVal.dict []),
         ("individual_foods", PyVal.list []),
         ("health_tips", PyVal.list [])] = true
      ∧ validate_llm_result
          [("foods_detected", PyVal.list [PyVal.str "Nasi"]),
           ("total_calories", PyVal.num ⟨500, 0⟩),
           ("confidence_score", PyVal.num ⟨8, 1⟩),
           ("nutritional_breakdown", PyVal.dict []),
           ("individual_foods", PyVal.list []),
           ("health_tips", PyVal.list [])]
        = some
          [("foods_detected", PyVal.list [PyVal.str "Nasi"]),
           ("total_calories", PyVal.num ⟨500, 0⟩),
           ("confidence_score", PyVal.num ⟨8, 1⟩),
           ("nutritional_breakdown", PyVal.dict []),
           ("individual_foods", PyVal.list []),
           ("health_tips", PyVal.list [])] :=
  ⟨rfl, (validator_idempotent_nonoverwriting _).1 rfl⟩

/-! ### Claim C9 -/

theorem dlookup_eq_none_of_not_contains {r : Record} {k : String}
    (h : dcontains r k = false) : dlookup r k = none := by
  unfold dcontains at h
  cases hx : dlookup r k with
  | none => rfl
  | some v => rw [hx] at h; simp at h

/-- On nonnegative numerators, Python's truncation agrees with the
rational floor. -/
theorem itrunc_eq_floor (m b : Nat) :
    itrunc (m : ℤ) b = ⌊(m : ℚ) / b⌋ := by
  have h0 : (0 : ℚ) ≤ (m : ℚ) / b := div_nonneg (by positivity) (by positivity)
  have h1 : itrunc (m : ℤ) b = ((m / b : ℕ) : ℤ) := by
    unfold itrunc
    split
    · rfl
    · rename_i hneg
      exact absurd (Int.natCast_nonneg m) hneg
  rw [h1, ← Int.natCast_floor_eq_floor h0, Nat.floor_div_eq_div]

theorem pyIntScale_floor (n : Int) (a b : Nat) (hn : 0 ≤ n) :
    pyIntScale ⟨n, 0⟩ a b = ⌊(n : ℚ) * a / b⌋ := by
  have hna : 0 ≤ n * (a : ℤ) := mul_nonneg hn (Int.natCast_nonneg a)
  obtain ⟨m, hm⟩ := Int.eq_ofNat_of_zero_le hna
  show itrunc (n * (a : ℤ)) (pow10 0 * b) = ⌊(n : ℚ) * a / b⌋
  rw [show pow10 0 * b = b from one_mul b]
  rw [hm, itrunc_eq_floor m b]
  congr 1
  have hq : ((m : ℤ) : ℚ) = (n : ℚ) * a := by
    rw [← hm]
    push_cast
    ring
  push_cast at hq
  rw [hq]

/-- The derived breakdown at a nonnegative integer calorie figure, with
each gram figure written as the claim's floor formula. -/
theorem mkBreakdown_floor (n : Int) (hn : 0 ≤ n) :
    mkBreakdown ⟨n, 0⟩
      = [("calories", PyVal.num ⟨n, 0⟩),
         ("protein", PyVal.str (intToStr ⌊(n : ℚ) * (16 / 100) / 4⌋ ++ "g")),
         ("carbohydrates", PyVal.str (intToStr ⌊(n : ℚ) * (54 / 100) / 4⌋ ++ "g")),
         ("fat", PyVal.str (intToStr ⌊(n : ℚ) * (30 / 100) / 9⌋ ++ "g")),
         ("fiber", PyVal.str (intToStr (max 4 ⌊(n : ℚ) / 120⌋) ++ "g")),
         ("sugar", PyVal.str (intToStr (max 3 ⌊(n : ℚ) / 150⌋) ++ "g"))] := by
  have p1 : pyIntScale ⟨n, 0⟩ 16 400 = ⌊(n : ℚ) * (16 / 100) / 4⌋ := by
    rw [pyIntScale_floor n 16 400 hn]
    congr 1
    push_cast
    ring
  have p2 : pyIntScale ⟨n, 0⟩ 54 400 = ⌊(n : ℚ) * (54 / 100) / 4⌋ := by
    rw [pyIntScale_floor n 54 400 hn]
    congr 1
    push_cast
    ring
  have p3 : pyIntScale ⟨n, 0⟩ 30 900 = ⌊(n : ℚ) * (30 / 100) / 9⌋ := by
    rw [pyIntScale_floor n 30 900 hn]
    congr 1
    push_cast
    ring
  have p4 : pyIntScale ⟨n, 0⟩ 1 120 = ⌊(n : ℚ) / 120⌋ := by
    rw [pyIntScale_floor n 1 120 hn]
    congr 1
    push_cast
    ring
  have p5 : pyIntScale ⟨n, 0⟩ 1 150 = ⌊(n : ℚ) / 150⌋ := by
    rw [pyIntScale_floor n 1 150 hn]
    congr 1
    push_cast
    ring
  unfold mkBreakdown gramStr
  rw [p1, p2, p3, p4, p5]

/-- C9 (counterexample): at the numeric `total_calories` C = -10 with
no breakdown supplied, the Validator derives protein "0g" and
carbohydrates "-1g" (Python `int()` truncates toward zero), while the
claim's floor formulas give -1 and -2 -- so the claimed floor law fails
on negative C. -/
theorem breakdown_derivation_not_floor :
    ((validate_llm_result
        [("foods_detected", PyVal.list [PyVal.str "Nasi"]),
         ("total_calories", PyVal.num ⟨-10, 0⟩),
         ("confidence_score", PyVal.num ⟨8, 1⟩),
         ("individual_foods", PyVal.list []),
         ("health_tips", PyVal.list [])]).bind
        (fun r => dlookup r "nutritional_breakdown"))
      = some (PyVal.dict
          [("calories", PyVal.num ⟨-10, 0⟩),
           ("protein", PyVal.str "0g"),
           ("carbohydrates", PyVal.str "-1g"),
           ("fat", PyVal.str "0g"),
           ("fiber", PyVal.str "4g"),
           ("sugar", PyVal.str "3g")])
      ∧ ⌊(-10 : ℚ) * (16 / 100) / 4⌋ = -1
      ∧ ⌊(-10 : ℚ) * (54 / 100) / 4⌋ = -2 := by
  refine ⟨rfl, ?_, ?_⟩
  · rw [Int.floor_eq_iff]
    norm_num
  · rw [Int.floor_eq_iff]
    norm_num

/-- C9 (amended): when the Validator derives `nutritional_breakdown`
for a candidate with numeric integer `total_calories` C and no
breakdown, the derived grams are Python `int()` truncations of
C*0.16/4, C*0.54/4, C*0.30/9, max(4, C/120), max(3, C/150); truncation
is toward zero, which agrees with the claim's floor exactly when
C ≥ 0 -- stated here for nonnegative C with the claim's floor
formulas (for C = 600 this gives protein "24g" and fat "20g", see the
witness). -/
theorem validator_breakdown_derivation (r r' : Record) (n : Int)
    (hn : 0 ≤ n)
    (htc : dlookup r "total_calories" = some (PyVal.num ⟨n, 0⟩))
    (hnb : dcontains r "nutritional_breakdown" = false)
    (hv : validate_llm_result r = some r') :
    dlookup r' "nutritional_breakdown"
      = some (PyVal.dict
          [("calories", PyVal.num ⟨n, 0⟩),
           ("protein", PyVal.str (intToStr ⌊(n : ℚ) * (16 / 100) / 4⌋ ++ "g")),
           ("carbohydrates", PyVal.str (intToStr ⌊(n : ℚ) * (54 / 100) / 4⌋ ++ "g")),
           ("fat", PyVal.str (intToStr ⌊(n : ℚ) * (30 / 100) / 9⌋ ++ "g")),
           ("fiber", PyVal.str (intToStr (max 4 ⌊(n : ℚ) / 120⌋) ++ "g")),
           ("sugar", PyVal.str (intToStr (max 3 ⌊(n : ℚ) / 150⌋) ++ "g"))]) := by
  unfold validate_llm_result at hv
  have l1tc : dlookup (fixFoods r) "total_calories" = some (PyVal.num ⟨n, 0⟩) := by
    rw [fixFoods_lookup_ne r _ (by decide)]
    exact htc
  have hId : fixCalories (fixFoods r) = fixFoods r :=
    fixCalories_id _ (by simp [isNumAt, isNumVal, l1tc])
  rw [hId] at hv
  have l3tc : dlookup (fixConfidence (fixFoods r)) "total_calories"
      = some (PyVal.num ⟨n, 0⟩) := by
    rw [fixConfidence_lookup_ne _ _ (by decide)]
    exact l1tc
  have l3nb : dlookup (fixConfidence (fixFoods r)) "nutritional_breakdown" = none := by
    rw [fixConfidence_lookup_ne _ _ (by decide), fixFoods_lookup_ne _ _ (by decide)]
    exact dlookup_eq_none_of_not_contains hnb
  have hBd : fixBreakdown (fixConfidence (fixFoods r))
      = dset (fixConfidence (fixFoods r)) "nutritional_breakdown"
          (PyVal.dict (mkBreakdown ⟨n, 0⟩)) := by
    unfold fixBreakdown
    rw [if_neg (by simp [isDictAt, l3nb])]
    rw [show getNumD (fixConfidence (fixFoods r)) "total_calories" (pnInt 450) = ⟨n, 0⟩
      from by unfold getNumD; rw [l3tc]]
  rw [hBd] at hv
  rw [fixTips_lookup_ne _ _ _ hv (by decide), fixIndividual_lookup_ne _ _ (by decide),
      dlookup_dset_self, mkBreakdown_floor n hn]

/-- C9 (witness): the derivation law applied at C = 600; the last
conjunct checks the concrete strings -- protein "24g", fat "20g". -/
theorem validator_breakdown_derivation_witness :
    (0 : Int) ≤ 600
      ∧ dlookup cand600 "total_calories" = some (PyVal.num ⟨600, 0⟩)
      ∧ dcontains cand600 "nutritional_breakdown" = false
      ∧ validate_llm_result cand600 = some ((validate_llm_result cand600).getD [])
      ∧ dlookup ((validate_llm_result cand600).getD []) "nutritional_breakdown"
          = some (PyVal.dict
              [("calories", PyVal.num ⟨600, 0⟩),
               ("protein", PyVal.str (intToStr ⌊((600 : Int) : ℚ) * (16 / 100) / 4⌋ ++ "g")),
               ("carbohydrates",
                 PyVal.str (intToStr ⌊((600 : Int) : ℚ) * (54 / 100) / 4⌋ ++ "g")),
               ("fat", PyVal.str (intToStr ⌊((600 : Int) : ℚ) * (30 / 100) / 9⌋ ++ "g")),
               ("fiber", PyVal.str (intToStr (max 4 ⌊((600 : Int) : ℚ) / 120⌋) ++ "g")),
               ("sugar", PyVal.str (intToStr (max 3 ⌊((600 : Int) : ℚ) / 150⌋) ++ "g"))])
      ∧ dlookup ((validate_llm_result cand600).getD []) "nutritional_breakdown"
          = some (PyVal.dict
              [("calories", PyVal.num ⟨600, 0⟩),
               ("protein", PyVal.str "24g"),
               ("carbohydrates", PyVal.str "81g"),
               ("fat", PyVal.str "20g"),
               ("fiber", PyVal.str "5g"),
               ("sugar", PyVal.str "4g")]) :=
  ⟨by norm_num, rfl, rfl, rfl,
    validator_breakdown_derivation cand600 ((validate_llm_result cand600).getD []) 600
      (by norm_num) rfl rfl rfl,
    rfl⟩
